import Mathlib

/-!
Shallow embedding of the RAG demo repository (rag_pipeline.py, vector_db.py,
view_pinecone_data.py, data_preparation.py).

External services (the Pinecone index backend, the sentence-embedding model and
the Gemini generation backend) are passed in as function parameters returning
`Except String` values: `.error e` models a raised Python exception whose
`str(e)` is `e`.  Python dict/JSON values are modelled by the `Json` type
below; `json.dumps` / `json.loads` are modelled by an executable serializer
and parser covering the fragment of JSON this repository produces (objects,
arrays, strings with quote/backslash escapes, integers, booleans, null;
float literals and \uXXXX escapes are not produced by any code path modelled
here).
-/

namespace RAG

/-- A Python/JSON value, as stored in document metadata and index records. -/
inductive Json where
  | null : Json
  | bool : Bool → Json
  | num : Int → Json
  | str : String → Json
  | arr : List Json → Json
  | obj : List (String × Json) → Json
deriving Repr, Inhabited

/-- Escape of a single character inside a JSON string literal
(`json.dumps` escaping, restricted to quote and backslash). -/
def escChar (c : Char) : String :=
  if c = '"' then "\\\"" else if c = '\\' then "\\\\" else String.singleton c

/-- Escape of a whole string for `json.dumps`. -/
def escapeString (s : String) : String :=
  String.join (s.toList.map escChar)

mutual

/-- Model of Python `json.dumps` with its default separators
(`", "` between items, `": "` between key and value). -/
def jsonDumps : Json → String
  | .null => "null"
  | .bool b => if b then "true" else "false"
  | .num n => toString n
  | .str s => "\"" ++ escapeString s ++ "\""
  | .arr es => "[" ++ dumpsList es ++ "]"
  | .obj ms => "\x7b" ++ dumpsMembers ms ++ "\x7d"

/-- Comma-separated rendering of array elements. -/
def dumpsList : List Json → String
  | [] => ""
  | [e] => jsonDumps e
  | e :: rest => jsonDumps e ++ ", " ++ dumpsList rest

/-- Comma-separated rendering of object members. -/
def dumpsMembers : List (String × Json) → String
  | [] => ""
  | [(k, v)] => "\"" ++ escapeString k ++ "\": " ++ jsonDumps v
  | (k, v) :: rest =>
      "\"" ++ escapeString k ++ "\": " ++ jsonDumps v ++ ", " ++ dumpsMembers rest

end

/-- JSON whitespace test. -/
def isWs (c : Char) : Bool := c = ' ' || c = '\n' || c = '\t' || c = '\r'

/-- Drop leading JSON whitespace. -/
def skipWs : List Char → List Char
  | c :: cs => if isWs c then skipWs cs else c :: cs
  | [] => []

/-- Decimal digit test. -/
def isDigitChar (c : Char) : Bool := '0' ≤ c && c ≤ '9'

/-- Split a character list into its leading digit run and the rest. -/
def takeDigits : List Char → List Char × List Char
  | c :: cs =>
      if isDigitChar c then
        let (ds, r) := takeDigits cs
        (c :: ds, r)
      else ([], c :: cs)
  | [] => ([], [])

/-- Numeric value of a digit run. -/
def digitsToNat (ds : List Char) : Nat :=
  ds.foldl (fun acc c => acc * 10 + (c.toNat - '0'.toNat)) 0

/-- The character `{` (written by code point to keep string literals plain). -/
def lbrace : Char := Char.ofNat 123

/-- The character `}`. -/
def rbrace : Char := Char.ofNat 125

/-- Parse the body of a JSON string literal, after the opening quote;
returns the string and the input after the closing quote. -/
def parseStringBody : List Char → Option (String × List Char)
  | '"' :: rest => some ("", rest)
  | '\\' :: c :: rest =>
      let esc : Option Char :=
        if c = '"' then some '"'
        else if c = '\\' then some '\\'
        else if c = '/' then some '/'
        else if c = 'n' then some '\n'
        else if c = 't' then some '\t'
        else if c = 'r' then some '\r'
        else none
      match esc with
      | none => none
      | some e =>
          match parseStringBody rest with
          | some (s, r) => some (String.singleton e ++ s, r)
          | none => none
  | c :: rest =>
      if c = '"' ∨ c = '\\' then none
      else
        match parseStringBody rest with
        | some (s, r) => some (String.singleton c ++ s, r)
        | none => none
  | [] => none

mutual

/-- Fueled recursive-descent parser for a JSON value (model of `json.loads`,
on the integer fragment of numbers).  Returns the value and the unconsumed
input. -/
def parseVal : Nat → List Char → Option (Json × List Char)
  | 0, _ => none
  | fuel + 1, cs =>
      match skipWs cs with
      | [] => none
      | c :: rest =>
          if c = '"' then
            match parseStringBody rest with
            | some (s, r) => some (.str s, r)
            | none => none
          else if c = lbrace then parseObjRest fuel rest []
          else if c = '[' then parseArrRest fuel rest []
          else
            match c :: rest with
            | 'n' :: 'u' :: 'l' :: 'l' :: r => some (.null, r)
            | 't' :: 'r' :: 'u' :: 'e' :: r => some (.bool true, r)
            | 'f' :: 'a' :: 'l' :: 's' :: 'e' :: r => some (.bool false, r)
            | '-' :: r =>
                match takeDigits r with
                | ([], _) => none
                | (ds, r') => some (.num (-(digitsToNat ds : Int)), r')
            | _ =>
                match takeDigits (c :: rest) with
                | ([], _) => none
                | (ds, r') => some (.num (digitsToNat ds : Int), r')

/-- Parse the members of an object after its `{`, given the members read so
far. -/
def parseObjRest : Nat → List Char → List (String × Json) → Option (Json × List Char)
  | 0, _, _ => none
  | fuel + 1, cs, acc =>
      match skipWs cs with
      | [] => none
      | c :: rest =>
          if c = rbrace then
            if acc.isEmpty then some (.obj [], rest) else none
          else if c = '"' then
            match parseStringBody rest with
            | none => none
            | some (k, r1) =>
                match skipWs r1 with
                | ':' :: r2 =>
                    match parseVal fuel r2 with
                    | none => none
                    | some (v, r3) =>
                        match skipWs r3 with
                        | ',' :: r4 => parseObjRest fuel r4 (acc ++ [(k, v)])
                        | d :: r4 =>
                            if d = rbrace then some (.obj (acc ++ [(k, v)]), r4)
                            else none
                        | [] => none
                | _ => none
          else none

/-- Parse the elements of an array after its `[`, given the elements read so
far. -/
def parseArrRest : Nat → List Char → List Json → Option (Json × List Char)
  | 0, _, _ => none
  | fuel + 1, cs, acc =>
      match skipWs cs with
      | [] => none
      | c :: rest =>
          if c = ']' then
            if acc.isEmpty then some (.arr [], rest) else none
          else
            match parseVal fuel (c :: rest) with
            | none => none
            | some (v, r1) =>
                match skipWs r1 with
                | ',' :: r2 => parseArrRest fuel r2 (acc ++ [v])
                | ']' :: r2 => some (.arr (acc ++ [v]), r2)
                | _ => none

end

/-- Model of Python `json.loads`: parse a complete JSON document, failing
(`none`, modelling `json.JSONDecodeError`) on trailing garbage or malformed
input. -/
def jsonLoads (s : String) : Option Json :=
  match parseVal (s.length + 2) s.toList with
  | some (v, rest) => if (skipWs rest).isEmpty then some v else none
  | none => none

/-- Python truthiness (`if not x:`) on a `Json` value. -/
def falsy : Json → Bool
  | .null => true
  | .bool b => !b
  | .num n => n = 0
  | .str s => s = ""
  | .arr es => es.isEmpty
  | .obj ms => ms.isEmpty

mutual

/-- Model of Python `repr` on `Json` values (string escaping inside
containers is elided; no claim exercises it). -/
def pyRepr : Json → String
  | .null => "None"
  | .bool b => if b then "True" else "False"
  | .num n => toString n
  | .str s => "\x27" ++ s ++ "\x27"
  | .arr es => "[" ++ pyReprList es ++ "]"
  | .obj ms => "\x7b" ++ pyReprMembers ms ++ "\x7d"

/-- Comma-separated `repr` of list elements. -/
def pyReprList : List Json → String
  | [] => ""
  | [e] => pyRepr e
  | e :: rest => pyRepr e ++ ", " ++ pyReprList rest

/-- Comma-separated `repr` of dict members. -/
def pyReprMembers : List (String × Json) → String
  | [] => ""
  | [(k, v)] => "\x27" ++ k ++ "\x27: " ++ pyRepr v
  | (k, v) :: rest => "\x27" ++ k ++ "\x27: " ++ pyRepr v ++ ", " ++ pyReprMembers rest

end

/-- Model of Python `str` on a `Json` value (used by f-strings and by
`str(doc.get("id", ...))`). -/
def pyStr : Json → String
  | .str s => s
  | other => pyRepr other

/-- Is this value a Python dict? (`isinstance(doc, dict)`). -/
def Json.isObj : Json → Bool
  | .obj _ => true
  | _ => false

/-- `d.get(key, dflt)` on a value known to be a dict (returns the default when
applied to a non-dict; callers below only use it after an `isObj` test). -/
def dictGetD (j : Json) (key : String) (dflt : Json) : Json :=
  match j with
  | .obj kvs => (kvs.lookup key).getD dflt
  | _ => dflt

/-- `m.get(key, dflt)` as used on deserialized match metadata in
`VectorDB.search`: on a non-dict value (e.g. after `json.loads` returned a
number) attribute lookup of `.get` raises `AttributeError`. -/
def pyDictGet (j : Json) (key : String) (dflt : Json) : Except String Json :=
  match j with
  | .obj kvs => .ok ((kvs.lookup key).getD dflt)
  | _ => .error "AttributeError"

/-! ## vector_db.py : VectorDB -/

/-- A raw match dict as returned by the index backend's `query`; `none`
models a missing key (`match.get(k, default)` sites supply the defaults). -/
structure RawMatch where
  id : Option String
  score : Option Rat
  metadata : Option Json

/-- The backend query response: `none` models a response with no `'matches'`
key (`'matches' not in results`). -/
abbrev QueryResponse := Option (List RawMatch)

/-- The metadata dict `VectorDB.search` builds for each match; the three keys
are always present. -/
structure MatchMeta where
  text : Json
  source : Json
  metadata : Json

/-- The `Match` result object built by `VectorDB.search`. -/
structure Match where
  id : String
  score : Rat
  metadata : MatchMeta

/-- The `SearchResults` result object built by `VectorDB.search`; the field
`matchList` is the source's `matches` attribute (`matches` is a Lean
keyword). -/
structure SearchResults where
  matchList : List Match

/-- Per-match processing in `VectorDB.search`'s result loop: deserialize
string metadata (falling back to `\x7b'text': str(metadata)\x7d` when
`json.loads` fails), then read the three fields with their defaults. -/
def processMatch (m : RawMatch) : Except String Match :=
  let metadata0 := m.metadata.getD (.obj [])
  let metadata :=
    match metadata0 with
    | .str s =>
        match jsonLoads s with
        | some v => v
        | none => Json.obj [("text", .str (pyStr (.str s)))]
    | other => other
  match pyDictGet metadata "text" (.str "") with
  | .error e => .error e
  | .ok text =>
      match pyDictGet metadata "source" (.str "unknown") with
      | .error e => .error e
      | .ok source =>
          match pyDictGet metadata "metadata" (.obj []) with
          | .error e => .error e
          | .ok inner =>
              .ok ⟨m.id.getD "", m.score.getD 0, ⟨text, source, inner⟩⟩

/-- The `for match in results['matches']` loop of `VectorDB.search`: matches
are converted in order; the first raised exception aborts the loop (to be
caught by the surrounding `try`). -/
def mapExcept (f : α → Except String β) : List α → Except String (List β)
  | [] => .ok []
  | a :: as =>
      match f a with
      | .error e => .error e
      | .ok b =>
          match mapExcept f as with
          | .error e => .error e
          | .ok bs => .ok (b :: bs)

/-- The body of the `try` block in `VectorDB.search`: query the backend and
convert each raw match; any error here is caught by `search`. -/
def searchTryBody (indexQuery : List Rat → Nat → Except String QueryResponse)
    (query_embedding : List Rat) (top_k : Nat) : Except String SearchResults :=
  match indexQuery query_embedding top_k with
  | .error e => .error e
  | .ok results =>
      match results with
      | none => .ok ⟨[]⟩
      | some [] => .ok ⟨[]⟩
      | some raws =>
          match mapExcept processMatch raws with
          | .error e => .error e
          | .ok ms => .ok ⟨ms⟩

/-- `VectorDB.search`: embed the query text (outside the `try`, so embedding
errors propagate), then run the guarded query/conversion, degrading any error
there to an empty `SearchResults`. -/
def search (embed : String → Except String (List Rat))
    (indexQuery : List Rat → Nat → Except String QueryResponse)
    (query_text : String) (top_k : Nat) : Except String SearchResults :=
  match embed query_text with
  | .error e => .error e
  | .ok query_embedding =>
      .ok (match searchTryBody indexQuery query_embedding top_k with
           | .ok r => r
           | .error _ => ⟨[]⟩)

/-- A vector record prepared by `upsert_documents` for the backend. -/
structure VectorRec where
  id : String
  values : List Rat
  metadata : Json

/-- The document-preparation loop of `VectorDB.upsert_documents`
(`for i, doc in enumerate(documents, 1)` with start index `i`): skip
non-dict documents and documents with falsy text, and skip (per-item
`try/except`) documents whose embedding call raises. -/
def buildVectorsAux (embed : Json → Except String (List Rat)) (i : Nat) :
    List Json → List VectorRec
  | [] => []
  | doc :: rest =>
      let others := buildVectorsAux embed (i + 1) rest
      if !doc.isObj then others
      else
        let text := dictGetD doc "text" (.str "")
        if falsy text then others
        else
          match embed text with
          | .error _ => others
          | .ok vector =>
              let metadata := Json.obj
                [("text", text),
                 ("source", dictGetD doc "source" (.str "unknown")),
                 ("metadata", .str (jsonDumps (dictGetD doc "metadata" (.obj []))))]
              let doc_id := pyStr (dictGetD doc "id" (.str ("doc_" ++ toString i)))
              ⟨doc_id, vector, metadata⟩ :: others

/-- The `vectors` list built by `VectorDB.upsert_documents`. -/
def buildVectors (embed : Json → Except String (List Rat))
    (documents : List Json) : List VectorRec :=
  buildVectorsAux embed 1 documents

/-- Modelled from the spec: the external index's upsert is insert-or-update
keyed by id (spec, Stored Vector Record: created on upsert, may be
overwritten by re-upsert with same id; Glossary: Upsert). -/
def storeUpsertOne (store : List VectorRec) (r : VectorRec) : List VectorRec :=
  if store.any (fun s => s.id = r.id) then
    store.map (fun s => if s.id = r.id then r else s)
  else store ++ [r]

/-- Modelled from the spec: one backend upsert call over a batch. -/
def storeUpsertBatch (store : List VectorRec) (batch : List VectorRec) :
    List VectorRec :=
  batch.foldl storeUpsertOne store

/-- The batched upsert loop of `VectorDB.upsert_documents`
(`for i in range(0, len(vectors), batch_size)` with `batch_size = 20`):
each slice `vectors[i:i+20]` is sent; a failing batch is logged and skipped
without aborting later batches.  The `Nat` is fuel for structural
termination; each step consumes at least one vector, so `vectors.length`
steps always suffice and `upsertLoop` supplies them. -/
def upsertLoopAux
    (up : List VectorRec → List VectorRec → Except String (List VectorRec)) :
    Nat → List VectorRec → List VectorRec → List VectorRec
  | 0, store, _ => store
  | fuel + 1, store, vectors =>
      match vectors with
      | [] => store
      | v :: vs =>
          let batch := (v :: vs).take 20
          let store' :=
            match up store batch with
            | .ok s => s
            | .error _ => store
          upsertLoopAux up fuel store' ((v :: vs).drop 20)

/-- The batched upsert loop at its full fuel. -/
def upsertLoop (up : List VectorRec → List VectorRec → Except String (List VectorRec))
    (store : List VectorRec) (vectors : List VectorRec) : List VectorRec :=
  upsertLoopAux up vectors.length store vectors

/-- Modelled from the spec: the external index's query returns, for each
matching stored record, a raw match carrying the record's id, a similarity
score, and the stored metadata verbatim (spec, Stored Vector Record and the
query interface of the vector index backend).  Here every stored record is
returned, with the given score. -/
def storeQueryAll (store : List VectorRec) (score : Rat) : QueryResponse :=
  some (store.map fun r => ⟨some r.id, some score, some r.metadata⟩)

/-- `VectorDB.upsert_documents` as a state transformer on the backend store:
prepare vectors, then upsert them in batches.  The trailing
statistics-verification phase of the source only prints and sleeps (its own
errors are caught), so it contributes nothing observable here. -/
def upsert_documents (embed : Json → Except String (List Rat))
    (up : List VectorRec → List VectorRec → Except String (List VectorRec))
    (documents : List Json) (store : List VectorRec) : List VectorRec :=
  upsertLoop up store (buildVectors embed documents)

/-! ## rag_pipeline.py : RAGPipeline -/

/-- Is `needle` a contiguous substring of `hay`? (Python `needle in hay`.) -/
def infixOfAux (needle : List Char) : List Char → Bool
  | [] => needle.isEmpty
  | c :: t => needle.isPrefixOf (c :: t) || infixOfAux needle t

/-- Python `needle in hay` on strings. -/
def strContains (hay needle : String) : Bool :=
  infixOfAux needle.toList hay.toList

/-- Lower-casing of one character (ASCII, as the model-name and error
strings here are). -/
def charLower (c : Char) : Char :=
  if 'A' ≤ c ∧ c ≤ 'Z' then Char.ofNat (c.toNat + 32) else c

/-- Python `s.lower()`. -/
def pyLower (s : String) : String :=
  String.mk (s.toList.map charLower)

/-- Python `s.replace(pat, rep)`: replace all non-overlapping occurrences
left to right.  The `Nat` is fuel for structural termination; each step
consumes at least one character, so `s.length` steps always suffice and
`pyReplace` supplies them. -/
def pyReplaceAux (pat rep : List Char) : Nat → List Char → List Char
  | 0, s => s
  | _ + 1, [] => []
  | fuel + 1, c :: rest =>
      if !pat.isEmpty && pat.isPrefixOf (c :: rest) then
        rep ++ pyReplaceAux pat rep fuel ((c :: rest).drop pat.length)
      else c :: pyReplaceAux pat rep fuel rest

/-- Python `s.replace(pat, rep)` (the empty-pattern case, which Python
treats as insertion everywhere, never occurs here: the only pattern used is
`"models/"`). -/
def pyReplace (s pat rep : String) : String :=
  String.mk (pyReplaceAux pat.toList rep.toList s.length s.toList)

/-- Python string whitespace (the characters `str.strip()` removes). -/
def isPyWs (c : Char) : Bool :=
  c = ' ' || c = '\t' || c = '\n' || c = '\r' || c = '\x0b' || c = '\x0c'

/-- Python `s.strip()`: drop leading and trailing whitespace. -/
def pyStrip (s : String) : String :=
  String.mk (((s.toList.dropWhile isPyWs).reverse.dropWhile isPyWs).reverse)

/-- Fixed answer when retrieval yields an empty context. -/
def noInfoAnswer : String :=
  "I couldn\x27t find any relevant information to answer your question."

/-- Fixed answer of `generate_response`'s top-level exception handler. -/
def errorAnswer : String :=
  "I encountered an error while processing your request. Please try again."

/-- Fixed apology when no capable model is listed. -/
def noModelsAnswer : String :=
  "I\x27m sorry, no compatible Gemini models are available right now."

/-- Fixed apology when the fallback switch or retry fails. -/
def unavailableAnswer : String :=
  "I\x27m sorry, the language model is currently unavailable. Please try again later."

/-- Fixed apology for generation errors outside the not-found class. -/
def genErrorAnswer : String :=
  "I\x27m sorry, I encountered an error while generating a response."

/-- An entry of the provider's model list: its name and whether
`'generateContent' in m.supported_generation_methods`. -/
structure ModelInfo where
  name : String
  supportsGenerateContent : Bool

/-- `RAGPipeline.call_gemini_generate`.  `generate model prompt` models
`GenerativeModel(model).generate_content(prompt)`; an `.ok r` response
carries `getattr(resp, 'text', '')` as `r.getD ""` (a `none` models a
response object without a `text` attribute).  `listModels` models
`genai.list_models()`.  Returns the answer string, the active model after
the call (`self.model`), and the trace of `generate_content` invocations
`(model, prompt)` in order — the source performs exactly these calls and
nothing else observable.  Python `.strip()` is `pyStrip`. -/
def call_gemini_generate
    (generate : String → String → Except String (Option String))
    (listModels : Unit → Except String (List ModelInfo))
    (model : String) (prompt : String) : String × String × List (String × String) :=
  match generate model prompt with
  | .ok resp => (pyStrip (resp.getD ""), model, [(model, prompt)])
  | .error e =>
      let msg := pyLower e
      if strContains msg "404" || strContains msg "not found" ||
          strContains msg "unsupported" then
        match listModels () with
        | .error _ => (unavailableAnswer, model, [(model, prompt)])
        | .ok ms =>
            match (ms.filter (fun m => m.supportsGenerateContent)).map (fun m => m.name) with
            | [] => (noModelsAnswer, model, [(model, prompt)])
            | m0 :: _ =>
                let fallback_model_name := pyReplace m0 "models/" ""
                match generate fallback_model_name prompt with
                | .ok resp =>
                    (pyStrip (resp.getD ""), fallback_model_name,
                      [(model, prompt), (fallback_model_name, prompt)])
                | .error _ =>
                    (unavailableAnswer, fallback_model_name,
                      [(model, prompt), (fallback_model_name, prompt)])
      else (genErrorAnswer, model, [(model, prompt)])

/-- The accumulation loop of `RAGPipeline._format_context`
(`for i, match in enumerate(search_results.matches)`). -/
def formatContextAux : Nat → List Match → String
  | _, [] => ""
  | i, m :: rest =>
      "Context " ++ toString (i + 1) ++ " (Source: " ++ pyStr m.metadata.source
        ++ "):\n" ++ pyStr m.metadata.text ++ "\n\n" ++ formatContextAux (i + 1) rest

/-- `RAGPipeline._format_context`: the dict built by `search` always carries
the `source` and `text` keys, so the `.get` defaults of the source are dead;
Python `.strip()` is `pyStrip`. -/
def formatContext (search_results : SearchResults) : String :=
  pyStrip (formatContextAux 0 search_results.matchList)

/-- The f-string prompt of `RAGPipeline.generate_response`, verbatim
(including the indentation of the Python triple-quoted literal). -/
def buildPrompt (context query : String) : String :=
  "You are a helpful AI assistant. Use the following context to answer the question at the end. \n            If the context doesn\x27t contain the answer, just say that you don\x27t know, don\x27t try to make up an answer.\n            \n            Context:\n            "
    ++ context
    ++ "\n            \n            Question: " ++ query
    ++ "\n            \n            Answer the question based on the context above. If the answer isn\x27t in the context, say \"I don\x27t have enough information to answer that question.\"\n            Answer:"

/-- A `sources` entry of the response dict. -/
structure SourceEntry where
  text : Json
  source : Json
  score : Rat

/-- The `\x7banswer, sources\x7d` dict returned by `generate_response`. -/
structure Response where
  answer : String
  sources : List SourceEntry

/-- `RAGPipeline.generate_response`.  `searchFn` models
`self.vector_db.search` (an `.error` is a raised exception) and `gen` models
`self.call_gemini_generate` at the call site (which in this program never
raises, but the `try` block covers it, so it is given the fallible type).
The second component is the trace of prompts passed to the generator.
Every `Match` built by `search` has a `metadata` attribute, so the
`hasattr(match, 'metadata')` filter of the source keeps every match. -/
def generate_response
    (searchFn : String → Nat → Except String SearchResults)
    (gen : String → Except String String)
    (query : String) (top_k : Nat) : Response × List String :=
  match searchFn query top_k with
  | .error _ => (⟨errorAnswer, []⟩, [])
  | .ok search_results =>
      let context := formatContext search_results
      if context = "" then (⟨noInfoAnswer, []⟩, [])
      else
        let prompt := buildPrompt context query
        match gen prompt with
        | .error _ => (⟨errorAnswer, []⟩, [prompt])
        | .ok answer =>
            (⟨answer,
              search_results.matchList.map
                (fun m => ⟨m.metadata.text, m.metadata.source, m.score⟩)⟩,
             [prompt])

/-! ## view_pinecone_data.py -/

/-- The index-backend operations a run can issue (mutating ones included, so
that read-onlyness is a contentful statement). -/
inductive PineconeOp where
  | listIndexes
  | describeStats
  | query
  | upsert
  | createIndex
  | deleteIndex
deriving Repr, DecidableEq

/-- The environment `view_data_in_pinecone` runs against: the
`PINECONE_API_KEY` variable, and the behavior of the backend calls it can
issue.  `describeStats` yields `stats.get('total_vector_count', 0)`. -/
structure PineconeEnv where
  apiKey : Option String
  listIndexes : Except String (List String)
  describeStats : Except String Nat
  query : List Rat → Nat → Except String QueryResponse

/-- An `except Exception as e: print(...)` clause around a block `b`: the
result `r` is produced whether or not `b` raised. -/
def caught (b : Except String Unit) (r : α) : α :=
  match b with
  | .ok _ => r
  | .error _ => r

/-- `view_data_in_pinecone`: returns `.error` when an exception escapes the
function, together with the trace of backend operations issued.  Only the
vector-fetch step is inside a `try`; its errors (a failing query, a missing
`'matches'` key, or `:.4f`-formatting a missing score) are printed and
swallowed.  Errors from `list_indexes` or `describe_index_stats` are not
guarded and propagate. -/
def view_data_in_pinecone (env : PineconeEnv) (index_name : String) :
    Except String Unit × List PineconeOp :=
  match env.apiKey with
  | none => (.ok (), [])
  | some _ =>
      match env.listIndexes with
      | .error e => (.error e, [.listIndexes])
      | .ok names =>
          if index_name ∉ names then (.ok (), [.listIndexes])
          else
            match env.describeStats with
            | .error e => (.error e, [.listIndexes, .describeStats])
            | .ok total_vectors =>
                if total_vectors = 0 then (.ok (), [.listIndexes, .describeStats])
                else
                  let body : Except String Unit :=
                    match env.query (List.replicate 384 0) total_vectors with
                    | .error e => .error e
                    | .ok none => .error "KeyError"
                    | .ok (some raws) =>
                        if raws.all (fun m => m.score.isSome) then .ok ()
                        else .error "TypeError"
                  caught body (.ok (), [.listIndexes, .describeStats, .query])

/-! ## Claim theorems -/

/-- `caught` ignores its guarded block. -/
theorem caught_eq (b : Except String Unit) (r : α) : caught b r = r := by
  cases b <;> rfl

/-- C10: in `VectorDB.search` the query embedding is computed before the
`try` block, so an exception from the embedding model propagates to the
caller instead of degrading to an empty result set. -/
theorem search_embed_error_propagates
    (embed : String → Except String (List Rat))
    (indexQuery : List Rat → Nat → Except String QueryResponse)
    (query_text : String) (top_k : Nat) (e : String)
    (he : embed query_text = .error e) :
    search embed indexQuery query_text top_k = .error e := by
  unfold search
  rw [he]

/-- Witness for C10 at a concrete embedding failure. -/
theorem search_embed_error_propagates_witness :
    search (fun _ => .error "model crashed") (fun _ _ => .ok (some [])) "q" 3 =
      .error "model crashed" :=
  search_embed_error_propagates _ _ "q" 3 "model crashed" rfl

/-- C2: if the backend's query operation raises, `VectorDB.search` returns a
`SearchResults` with an empty match list and does not raise to its caller. -/
theorem search_backend_error_returns_empty
    (embed : String → Except String (List Rat))
    (indexQuery : List Rat → Nat → Except String QueryResponse)
    (query_text : String) (top_k : Nat) (emb : List Rat) (e : String)
    (he : embed query_text = .ok emb)
    (hq : indexQuery emb top_k = .error e) :
    search embed indexQuery query_text top_k = .ok ⟨[]⟩ := by
  unfold search
  rw [he]
  dsimp only
  unfold searchTryBody
  rw [hq]

/-- Witness for C2 at a concrete backend failure. -/
theorem search_backend_error_returns_empty_witness :
    search (fun _ => .ok [1]) (fun _ _ => .error "backend down") "q" 3 = .ok ⟨[]⟩ :=
  search_backend_error_returns_empty _ _ "q" 3 [1] "backend down" rfl rfl

/-- The context formatted from an empty match list is empty. -/
theorem formatContext_nil (res : SearchResults) (hm : res.matchList = []) :
    formatContext res = "" := by
  unfold formatContext
  rw [hm]
  rfl

/-- C1: when retrieval yields zero matches (so the formatted context is
empty), `generate_response` returns the fixed no-relevant-information answer
with an empty sources list, and the generator-invocation trace is empty —
`call_gemini_generate` is never invoked (the result holds for every
generator `gen`). -/
theorem generate_response_empty_retrieval
    (searchFn : String → Nat → Except String SearchResults)
    (gen : String → Except String String)
    (query : String) (top_k : Nat) (res : SearchResults)
    (hs : searchFn query top_k = .ok res)
    (hm : res.matchList = []) :
    generate_response searchFn gen query top_k = (⟨noInfoAnswer, []⟩, []) := by
  unfold generate_response
  rw [hs]
  dsimp only
  rw [formatContext_nil res hm]
  rfl

/-- Witness for C1 at a concrete empty retrieval. -/
theorem generate_response_empty_retrieval_witness :
    generate_response (fun _ _ => .ok ⟨[]⟩) (fun _ => .ok "ignored") "q" 3 =
      (⟨noInfoAnswer, []⟩, []) :=
  generate_response_empty_retrieval _ _ "q" 3 ⟨[]⟩ rfl rfl

/-- C4: `generate_response`'s top-level handler converts every exception in
its flow into the fixed error answer with empty sources: a raising retrieval
(first conjunct) and a raising generation step (second conjunct) both yield
it, and the total return type shows no exception escapes.  Context
formatting and prompt building are pure total functions in this program and
cannot raise. -/
theorem generate_response_catches_exceptions
    (searchFn : String → Nat → Except String SearchResults)
    (gen : String → Except String String) (query : String) (top_k : Nat) :
    (∀ e, searchFn query top_k = .error e →
        generate_response searchFn gen query top_k = (⟨errorAnswer, []⟩, [])) ∧
    (∀ res e, searchFn query top_k = .ok res →
        formatContext res ≠ "" →
        gen (buildPrompt (formatContext res) query) = .error e →
        generate_response searchFn gen query top_k =
          (⟨errorAnswer, []⟩, [buildPrompt (formatContext res) query])) := by
  constructor
  · intro e hs
    unfold generate_response
    rw [hs]
  · intro res e hs hc hg
    unfold generate_response
    rw [hs]
    dsimp only
    rw [if_neg hc, hg]

/-- Witness for C4 at a concrete raising retrieval. -/
theorem generate_response_catches_exceptions_witness :
    generate_response (fun _ _ => .error "boom") (fun _ => .ok "ignored") "q" 3 =
      (⟨errorAnswer, []⟩, []) :=
  (generate_response_catches_exceptions _ _ "q" 3).1 "boom" rfl

/-- C6: when `generate_response` reaches the generation step (nonempty
context) and the generator returns `ans`, the response is `ans` together
with one source entry per retrieved match, in retrieval order, carrying that
match's text, source and score. -/
theorem generate_response_sources_mirror_matches
    (searchFn : String → Nat → Except String SearchResults)
    (gen : String → Except String String) (query : String) (top_k : Nat)
    (res : SearchResults) (ans : String)
    (hs : searchFn query top_k = .ok res)
    (hc : formatContext res ≠ "")
    (hg : gen (buildPrompt (formatContext res) query) = .ok ans) :
    generate_response searchFn gen query top_k =
      (⟨ans, res.matchList.map (fun m => ⟨m.metadata.text, m.metadata.source, m.score⟩)⟩,
       [buildPrompt (formatContext res) query]) := by
  unfold generate_response
  rw [hs]
  dsimp only
  rw [if_neg hc, hg]

/-- Witness for C6 at a concrete one-match retrieval. -/
theorem generate_response_sources_mirror_matches_witness :
    generate_response
        (fun _ _ => .ok ⟨[⟨"d1", 1, ⟨.str "some text", .str "physics", .obj []⟩⟩]⟩)
        (fun _ => .ok "the answer") "q" 3 =
      (⟨"the answer", [⟨.str "some text", .str "physics", 1⟩]⟩,
       [buildPrompt
          (formatContext ⟨[⟨"d1", 1, ⟨.str "some text", .str "physics", .obj []⟩⟩]⟩) "q"]) :=
  generate_response_sources_mirror_matches _ _ "q" 3
    ⟨[⟨"d1", 1, ⟨.str "some text", .str "physics", .obj []⟩⟩]⟩ "the answer"
    rfl (by decide) rfl

/-- C5: the document loop of `upsert_documents` skips an entry that is not a
dict or whose text is missing/empty — contributing no vector (for every
embedding function, so the entry is never embedded and never reaches the
index, whose input is the vector list) while the remaining entries are still
processed at their original loop indices — and a well-formed entry whose
embedding succeeds contributes exactly its record. -/
theorem upsert_documents_skips_malformed
    (embed : Json → Except String (List Rat)) (i : Nat) (doc : Json)
    (rest : List Json) :
    (doc.isObj = false ∨ falsy (dictGetD doc "text" (.str "")) = true →
        buildVectorsAux embed i (doc :: rest) = buildVectorsAux embed (i + 1) rest) ∧
    (doc.isObj = true → falsy (dictGetD doc "text" (.str "")) = false →
        ∀ v, embed (dictGetD doc "text" (.str "")) = .ok v →
          buildVectorsAux embed i (doc :: rest) =
            ⟨pyStr (dictGetD doc "id" (.str ("doc_" ++ toString i))), v,
              Json.obj
                [("text", dictGetD doc "text" (.str "")),
                 ("source", dictGetD doc "source" (.str "unknown")),
                 ("metadata", .str (jsonDumps (dictGetD doc "metadata" (.obj []))))]⟩
              :: buildVectorsAux embed (i + 1) rest) := by
  constructor
  · intro h
    conv_lhs => unfold buildVectorsAux
    rcases h with h | h
    · simp [h]
    · cases hobj : doc.isObj with
      | false => simp [hobj]
      | true => simp [hobj, h]
  · intro hobj htext v hv
    conv_lhs => unfold buildVectorsAux
    simp [hobj, htext, hv]

/-- Witness for C5: a non-dict entry is skipped and the following well-formed
entry is still processed. -/
theorem upsert_documents_skips_malformed_witness :
    buildVectorsAux (fun _ => .ok [1]) 1 [.str "bad", .obj [("text", .str "good")]] =
      buildVectorsAux (fun _ => .ok [1]) 2 [.obj [("text", .str "good")]] :=
  (upsert_documents_skips_malformed (fun _ => .ok [1]) 1 (.str "bad")
    [.obj [("text", .str "good")]]).1 (Or.inl rfl)

/-- C7 counterexample: a backend match whose metadata is the unparseable
string `"notjson"` yields a match whose `text` field is that very string,
not the empty string the claim asserts. -/
theorem search_parsefail_counterexample :
    search (fun _ => .ok [1])
        (fun _ _ => .ok (some [⟨some "d1", some 1, some (.str "notjson")⟩]))
        "q" 3 =
      .ok ⟨[⟨"d1", 1, ⟨.str "notjson", .str "unknown", .obj []⟩⟩]⟩
    ∧ Json.str "notjson" ≠ Json.str "" := by
  constructor
  · rfl
  · intro h
    injection h with h2
    exact absurd h2 (by decide)

/-- C7 amended: for a backend match whose metadata is a string, `search`
deserializes it with `json.loads`; on success the fields are read from the
parsed dict with their defaults, and on failure `text` is set to the raw
string itself while `source` and `metadata` take their defaults
(`'unknown'` and the empty dict). -/
theorem search_string_metadata_deserialized
    (embed : String → Except String (List Rat))
    (indexQuery : List Rat → Nat → Except String QueryResponse)
    (query_text : String) (top_k : Nat) (emb : List Rat)
    (id : String) (sc : Rat) (s : String)
    (he : embed query_text = .ok emb)
    (hq : indexQuery emb top_k = .ok (some [⟨some id, some sc, some (.str s)⟩])) :
    (∀ kvs, jsonLoads s = some (.obj kvs) →
        search embed indexQuery query_text top_k =
          .ok ⟨[⟨id, sc,
                ⟨(kvs.lookup "text").getD (.str ""),
                 (kvs.lookup "source").getD (.str "unknown"),
                 (kvs.lookup "metadata").getD (.obj [])⟩⟩]⟩) ∧
    (jsonLoads s = none →
        search embed indexQuery query_text top_k =
          .ok ⟨[⟨id, sc, ⟨.str s, .str "unknown", .obj []⟩⟩]⟩) := by
  constructor
  · intro kvs hp
    unfold search
    rw [he]
    dsimp only
    unfold searchTryBody
    rw [hq]
    simp [mapExcept, processMatch, hp, pyDictGet]
  · intro hp
    unfold search
    rw [he]
    dsimp only
    unfold searchTryBody
    rw [hq]
    simp [mapExcept, processMatch, hp, pyDictGet, pyStr]
    exact ⟨rfl, rfl⟩

/-- Witness for C7's amended theorem at the unparseable string `"notjson"`. -/
theorem search_string_metadata_deserialized_witness :
    search (fun _ => .ok [1])
        (fun _ _ => .ok (some [⟨some "d2", some 1, some (.str "notjson")⟩]))
        "q" 3 =
      .ok ⟨[⟨"d2", 1, ⟨.str "notjson", .str "unknown", .obj []⟩⟩]⟩ :=
  (search_string_metadata_deserialized _ _ "q" 3 [1] "d2" 1 "notjson" rfl rfl).2 rfl

/-- The sample physics document of data_preparation.py, whose extra metadata
is `\x7b"year": 1905\x7d` (the author field is dropped; the claim concerns
the year entry). -/
def einsteinDoc : Json := .obj
  [("id", .str "1"),
   ("text", .str "The theory of relativity was developed by Albert Einstein in 1905."),
   ("source", .str "physics"),
   ("metadata", .obj [("year", .num 1905)])]

/-- The index store after upserting `einsteinDoc` through
`upsert_documents` against the spec-modelled backend store. -/
def roundtripStore : List VectorRec :=
  upsert_documents (fun _ => .ok [1])
    (fun st b => .ok (storeUpsertBatch st b)) [einsteinDoc] []

/-- C8: round-trip of document metadata through the index.  Upserting a
document whose metadata is `\x7b"year": 1905\x7d` and querying it back
yields a match whose `metadata` field is the JSON serialization of that
dict, and deserializing that string recovers exactly `\x7b"year": 1905\x7d`. -/
theorem metadata_roundtrip_year_1905 :
    search (fun _ => .ok [1]) (fun _ _ => .ok (storeQueryAll roundtripStore 1))
        "What is the theory of relativity?" 3 =
      .ok ⟨[⟨"1", 1,
            ⟨.str "The theory of relativity was developed by Albert Einstein in 1905.",
             .str "physics",
             .str "\x7b\"year\": 1905\x7d"⟩⟩]⟩
    ∧ jsonLoads "\x7b\"year\": 1905\x7d" = some (.obj [("year", .num 1905)]) :=
  ⟨rfl, rfl⟩

/-- C9 counterexample: a run in which `describe_index_stats` raises
propagates that exception out of `view_data_in_pinecone` (the call is not
inside any `try`), refuting "every error that occurs during the run is
caught". -/
theorem view_data_stats_error_propagates :
    view_data_in_pinecone
        ⟨some "key", .ok ["rag-demo"], .error "boom", fun _ _ => .ok (some [])⟩
        "rag-demo" =
      (.error "boom", [.listIndexes, .describeStats]) := rfl

/-- C9 amended: `view_data_in_pinecone` issues no mutating index operation —
every operation in its trace is list-indexes, describe-stats or query — and
every error in the vector-fetch step is caught (once the run reaches that
step it returns normally, whatever the query returns); but errors from
index listing or statistics retrieval do propagate, as the counterexample
shows. -/
theorem view_data_readonly_and_fetch_guarded
    (env : PineconeEnv) (index_name : String) :
    (∀ op ∈ (view_data_in_pinecone env index_name).2,
        op = PineconeOp.listIndexes ∨ op = PineconeOp.describeStats ∨
          op = PineconeOp.query) ∧
    (∀ k idxs n, env.apiKey = some k → env.listIndexes = .ok idxs →
        index_name ∈ idxs → env.describeStats = .ok n → n ≠ 0 →
        (view_data_in_pinecone env index_name).1 = .ok ()) := by
  obtain ⟨key, li, ds, q⟩ := env
  constructor
  · intro op hop
    unfold view_data_in_pinecone at hop
    cases key with
    | none => simp at hop
    | some k =>
        cases li with
        | error e => simp at hop; simp [hop]
        | ok names =>
            by_cases hmem : index_name ∈ names
            · simp only [hmem, not_true_eq_false, if_false] at hop
              cases ds with
              | error e => simp at hop; rcases hop with h | h <;> simp [h]
              | ok n =>
                  by_cases hn : n = 0
                  · simp only [hn, if_pos rfl] at hop
                    simp at hop
                    rcases hop with h | h <;> simp [h]
                  · simp only [if_neg hn] at hop
                    rw [caught_eq] at hop
                    simp at hop
                    rcases hop with h | h | h <;> simp [h]
            · simp only [hmem, not_false_eq_true, if_true] at hop
              simp at hop
              simp [hop]
  · intro k idxs n hk hli hmem hds hn
    dsimp only at hk hli hds
    subst hk
    subst hli
    subst hds
    unfold view_data_in_pinecone
    dsimp only
    rw [if_neg (not_not_intro hmem), if_neg hn, caught_eq]

/-- C3: `call_gemini_generate` never raises (its total return type), makes
at most two generation calls, and follows the fallback policy: a successful
call returns the stripped text; an error outside the not-found/unsupported
class returns the fixed generation apology; an error inside the class
re-lists models and then (a) returns the fixed unavailable apology when
listing raises, (b) returns the fixed no-models apology when no capable
model is listed, and (c) otherwise switches the active model to the first
capable one and retries exactly once, returning the retry's stripped text
on success and the fixed unavailable apology on failure. -/
theorem call_gemini_generate_fallback_policy
    (generate : String → String → Except String (Option String))
    (listModels : Unit → Except String (List ModelInfo))
    (model prompt : String) :
    (call_gemini_generate generate listModels model prompt).2.2.length ≤ 2 ∧
    (∀ r, generate model prompt = .ok r →
        call_gemini_generate generate listModels model prompt =
          (pyStrip (r.getD ""), model, [(model, prompt)])) ∧
    (∀ e, generate model prompt = .error e →
        (strContains (pyLower e) "404" || strContains (pyLower e) "not found" ||
          strContains (pyLower e) "unsupported") = false →
        call_gemini_generate generate listModels model prompt =
          (genErrorAnswer, model, [(model, prompt)])) ∧
    (∀ e, generate model prompt = .error e →
        (strContains (pyLower e) "404" || strContains (pyLower e) "not found" ||
          strContains (pyLower e) "unsupported") = true →
        (∀ e2, listModels () = .error e2 →
            call_gemini_generate generate listModels model prompt =
              (unavailableAnswer, model, [(model, prompt)])) ∧
        (∀ ms, listModels () = .ok ms →
            (ms.filter (fun m => m.supportsGenerateContent)).map (fun m => m.name) = [] →
            call_gemini_generate generate listModels model prompt =
              (noModelsAnswer, model, [(model, prompt)])) ∧
        (∀ ms m0 mrest, listModels () = .ok ms →
            (ms.filter (fun m => m.supportsGenerateContent)).map (fun m => m.name) =
              m0 :: mrest →
            (∀ r, generate (pyReplace m0 "models/" "") prompt = .ok r →
                call_gemini_generate generate listModels model prompt =
                  (pyStrip (r.getD ""), pyReplace m0 "models/" "",
                   [(model, prompt), (pyReplace m0 "models/" "", prompt)])) ∧
            (∀ e3, generate (pyReplace m0 "models/" "") prompt = .error e3 →
                call_gemini_generate generate listModels model prompt =
                  (unavailableAnswer, pyReplace m0 "models/" "",
                   [(model, prompt), (pyReplace m0 "models/" "", prompt)])))) := by
  refine ⟨?_, ?_, ?_, ?_⟩
  · unfold call_gemini_generate
    cases hg : generate model prompt with
    | ok r => simp
    | error e =>
        dsimp only
        by_cases hcl : (strContains (pyLower e) "404" ||
            strContains (pyLower e) "not found" ||
            strContains (pyLower e) "unsupported") = true
        · rw [if_pos hcl]
          cases hl : listModels () with
          | error e2 => simp
          | ok ms =>
              dsimp only
              cases hms : (ms.filter (fun m => m.supportsGenerateContent)).map
                  (fun m => m.name) with
              | nil => simp
              | cons m0 mrest =>
                  dsimp only
                  cases generate (pyReplace m0 "models/" "") prompt <;> simp
        · rw [if_neg hcl]
          simp
  · intro r hg
    unfold call_gemini_generate
    rw [hg]
  · intro e hg hcl
    unfold call_gemini_generate
    rw [hg]
    dsimp only
    rw [if_neg (by simp [hcl])]
  · intro e hg hcl
    refine ⟨?_, ?_, ?_⟩
    · intro e2 hl
      unfold call_gemini_generate
      rw [hg]
      dsimp only
      rw [if_pos hcl, hl]
    · intro ms hl hms
      unfold call_gemini_generate
      rw [hg]
      dsimp only
      rw [if_pos hcl, hl]
      dsimp only
      rw [hms]
    · intro ms m0 mrest hl hms
      constructor
      · intro r hr
        unfold call_gemini_generate
        rw [hg]
        dsimp only
        rw [if_pos hcl, hl]
        dsimp only
        rw [hms]
        dsimp only
        rw [hr]
      · intro e3 he3
        unfold call_gemini_generate
        rw [hg]
        dsimp only
        rw [if_pos hcl, hl]
        dsimp only
        rw [hms]
        dsimp only
        rw [he3]

/-- Witness for C3 at a concrete run through the fallback path whose retry
also fails: one switch to the first capable listed model, exactly two
generation calls, and the fixed apology instead of a raised exception. -/
theorem call_gemini_generate_fallback_policy_witness :
    call_gemini_generate
        (fun _ _ => .error "404 model not found")
        (fun _ => .ok [⟨"models/gemini-pro", true⟩])
        "gemini-1.5-flash" "hello" =
      (unavailableAnswer, pyReplace "models/gemini-pro" "models/" "",
       [("gemini-1.5-flash", "hello"), (pyReplace "models/gemini-pro" "models/" "", "hello")]) :=
  (((call_gemini_generate_fallback_policy
        (fun _ _ => .error "404 model not found")
        (fun _ => .ok [⟨"models/gemini-pro", true⟩])
        "gemini-1.5-flash" "hello").2.2.2 "404 model not found" rfl
      (by decide)).2.2 [⟨"models/gemini-pro", true⟩] "models/gemini-pro" [] rfl
      rfl).2 "404 model not found" rfl

/-- Witness for C9's amended theorem at a run whose fetch query raises. -/
theorem view_data_readonly_and_fetch_guarded_witness :
    (view_data_in_pinecone
        ⟨some "key", .ok ["rag-demo"], .ok 5, fun _ _ => .error "query down"⟩
        "rag-demo").1 = .ok () :=
  (view_data_readonly_and_fetch_guarded
      ⟨some "key", .ok ["rag-demo"], .ok 5, fun _ _ => .error "query down"⟩
      "rag-demo").2 "key" ["rag-demo"] 5 rfl rfl (by decide) rfl (by decide)

end RAG
